import Mathlib

/-!
Loan-Bot chat widget (`static/app.js`).

A shallow embedding of the chat widget script.  The DOM elements the script
talks to, the console, the speech synthesiser and the network are made
explicit as fields of one record, `Widget`; every statement of the script that
touches one of them becomes a function on that record.

`sendMessage` is an `async` function.  Its body runs synchronously up to
`await fetch(...)` (`sendMessageStart`), and the rest of the body runs when the
remote call resolves (`sendMessageResume`).  The second suspension point,
`await response.json()`, is reached without any effect on the widget, so both
suspension points are resolved by one `FetchOutcome`.

A reply is whatever `data.reply` evaluates to.  Rendering it converts it to a
string, which throws for some parsed values (`hasStringConversion`), and
sending it back converts it to JSON text, which leaves out what is `undefined`
(`serializeJSON`).
-/

namespace LoanBot

/-! JavaScript values -/

/-- Values a JavaScript expression of the script can evaluate to: `undefined`
and the values `JSON.parse` produces.  An object is the list of its own
properties. -/
inductive JsVal where
  | undefined : JsVal
  | null : JsVal
  | bool (b : Bool) : JsVal
  | num (n : Rat) : JsVal
  | str (s : String) : JsVal
  | arr (items : List JsVal) : JsVal
  | obj (props : List (String × JsVal)) : JsVal

/-- What the script can throw inside the `try` block of `sendMessage`. -/
inductive Thrown where
  /-- The promise returned by `fetch` rejects. -/
  | fetchRejected : Thrown
  /-- Line 86: `throw new Error('Network response was not ok')`. -/
  | notOk : Thrown
  /-- The promise returned by `response.json()` rejects. -/
  | jsonRejected : Thrown
  /-- A `TypeError`: reading `data.reply` when `data` is `null` or `undefined`,
  or converting to a string a value that has no string conversion. -/
  | typeError : Thrown
  deriving DecidableEq, Repr

/-- The expression `data.reply` (line 90).  Property access throws on `null`
and `undefined`; on any other value it yields the own property `reply` when
there is one and `undefined` otherwise (numbers, booleans, strings and arrays
have no property of that name). -/
def getReply : JsVal → Except Thrown JsVal
  | .undefined => .error .typeError
  | .null => .error .typeError
  | .obj props =>
    match props.lookup "reply" with
    | some v => .ok v
    | none => .ok .undefined
  | _ => .ok .undefined

mutual
/-- Whether converting a value to a string returns (`true`) or throws a
`TypeError` (`false`).  A parsed object converts through
`Object.prototype.toString`, unless it has an own property `toString`: that
property is no function, and `valueOf`, own or inherited, returns no
primitive.  An array converts through `join`, which converts its elements. -/
def hasStringConversion : JsVal → Bool
  | .arr items => allHaveStringConversion items
  | .obj props => (props.lookup "toString").isNone
  | _ => true
/-- Whether every value of a list has a string conversion. -/
def allHaveStringConversion : List JsVal → Bool
  | [] => true
  | v :: vs => hasStringConversion v && allHaveStringConversion vs
end

mutual
/-- What `JSON.stringify` writes for a value other than `undefined`, as the
JSON value its text denotes: of an object the properties whose value is not
`undefined`, of an array every element, `undefined` written `null`. -/
def serializeJSON : JsVal → JsVal
  | .arr items => .arr (serializeItems items)
  | .obj props => .obj (serializeProps props)
  | v => v
/-- The elements `JSON.stringify` writes for an array. -/
def serializeItems : List JsVal → List JsVal
  | [] => []
  | .undefined :: vs => .null :: serializeItems vs
  | v :: vs => serializeJSON v :: serializeItems vs
/-- The properties `JSON.stringify` writes for an object. -/
def serializeProps : List (String × JsVal) → List (String × JsVal)
  | [] => []
  | (_, .undefined) :: ps => serializeProps ps
  | (k, v) :: ps => (k, serializeJSON v) :: serializeProps ps
end

/-! Strings -/

/-- The code points `String.prototype.trim` strips: the ECMAScript `WhiteSpace`
and `LineTerminator` productions. -/
def isJsWhiteSpace (c : Char) : Bool :=
  let n := c.toNat
  n == 0x09 || n == 0x0A || n == 0x0B || n == 0x0C || n == 0x0D || n == 0x20 ||
  n == 0xA0 || n == 0x1680 || (0x2000 ≤ n && n ≤ 0x200A) || n == 0x2028 ||
  n == 0x2029 || n == 0x202F || n == 0x205F || n == 0x3000 || n == 0xFEFF

/-- Strip the white space at both ends of a list of characters. -/
def trimChars (cs : List Char) : List Char :=
  ((cs.dropWhile isJsWhiteSpace).reverse.dropWhile isJsWhiteSpace).reverse

/-- The method `String.prototype.trim`. -/
def jsTrim (s : String) : String :=
  ⟨trimChars s.data⟩

/-! The widget state -/

/-- One entry of `parts`: `{ text: ... }`. -/
structure Part where
  text : JsVal

/-- One entry of `chatHistory`: `{ role: ..., parts: [...] }`. -/
structure Turn where
  role : String
  parts : List Part

/-- The call `fetch(url, { method, headers, body })` of line 76, with the
object handed to `JSON.stringify` kept as `message` and `history`. -/
structure ChatRequest where
  url : String
  method : String
  contentType : String
  message : String
  history : List Turn

/-- Everything the script reads or writes. -/
structure Widget where
  /-- The variable `chatHistory` (line 14). -/
  chatHistory : List Turn
  /-- The property `chatInput.value`. -/
  inputValue : String
  /-- Whether `typingIndicator.classList` contains `hidden`. -/
  typingHidden : Bool
  /-- The property `sendBtn.disabled`. -/
  sendDisabled : Bool
  /-- Whether the variable `recognition` is not `null` (lines 19 to 22). -/
  recognition : Bool
  /-- Whether `micBtn.classList` contains `recording`. -/
  micRecording : Bool
  /-- Whether `micBtn.style.display` is `none`. -/
  micHidden : Bool
  /-- The children of `chatMessages`, oldest first: the arguments of each
  `addMessage(text, sender)` call. -/
  messages : List (JsVal × String)
  /-- The arguments of each `speak(text)` call, oldest first. -/
  spoken : List JsVal
  /-- The `fetch` calls issued, oldest first. -/
  requests : List ChatRequest
  /-- The errors passed to `console.error`, oldest first. -/
  consoleErrors : List Thrown
  /-- How many `sendMessage` calls are suspended on their remote call. -/
  inFlight : Nat

/-- How the remote call of one `sendMessage` resolves. -/
inductive FetchOutcome where
  /-- The promise of `fetch` rejects: a transport failure. -/
  | rejected : FetchOutcome
  /-- A response arrives with the status `status`; `body` is what
  `response.json()` resolves to, `none` when it rejects. -/
  | response (status : Nat) (body : Option JsVal) : FetchOutcome

/-- The property `response.ok`: the status is in the range 200 to 299. -/
def responseOk (status : Nat) : Bool :=
  200 ≤ status && status ≤ 299

/-! The functions of the script -/

/-- The literal of line 138. -/
def welcomeMessage : String :=
  "Hi there! I'm Fin, your personal loan assistant. To get started, could you please tell me your first name (e.g., Alice, Bob, Charlie...)?"

/-- The literal of line 103. -/
def errorMessage : String :=
  "Error: Could not get a response from the server."

/-- The function `addMessage(text, sender)` (lines 112 to 127): one more child
of `chatMessages`.  The assignment `messageElement.innerHTML = text` of line
121 converts `text` to a string; when that throws, no child is appended. -/
def addMessage (w : Widget) (text : JsVal) (sender : String) : Except Thrown Widget :=
  if hasStringConversion text then .ok { w with messages := w.messages ++ [(text, sender)] }
  else .error .typeError

/-- The function `speak(text)` (lines 48 to 55): one more utterance handed to
`window.speechSynthesis`, which the script takes to exist.  The constructor
`SpeechSynthesisUtterance` converts `text` to a string. -/
def speak (w : Widget) (text : JsVal) : Except Thrown Widget :=
  if hasStringConversion text then .ok { w with spoken := w.spoken ++ [text] }
  else .error .typeError

/-- The statement `chatHistory.push({ role: role, parts: [{ text: text }] })`. -/
def pushTurn (w : Widget) (role : String) (text : JsVal) : Widget :=
  { w with chatHistory := w.chatHistory ++ [{ role := role, parts := [{ text := text }] }] }

/-- Lines 60 to 83 of `sendMessage`: everything up to the suspension on
`await fetch(...)`.  With an empty `messageText` the function returns at
line 61.  Line 64 is outside the `try` block: an exception there ends the
call. -/
def sendMessageStart (w : Widget) : Widget :=
  let messageText := jsTrim w.inputValue
  if messageText = "" then w
  else
    match addMessage w (.str messageText) "user" with
    | .error _ => w
    | .ok w =>
      let w := pushTurn w "user" (.str messageText)
      let w := { w with inputValue := "" }
      let w := { w with typingHidden := false }
      let w := { w with sendDisabled := true }
      let request : ChatRequest :=
        { url := "/chat", method := "POST", contentType := "application/json",
          message := messageText, history := w.chatHistory }
      let w := { w with requests := w.requests ++ [request] }
      { w with inFlight := w.inFlight + 1 }

/-- Lines 76 to 99: the `try` block from the point where the remote call
resolves.  The result is the widget at the end of the block, or the widget at
the `throw` together with what is thrown. -/
def tryBlock (w : Widget) : FetchOutcome → Except (Widget × Thrown) Widget
  | .rejected => .error (w, .fetchRejected)
  | .response status body =>
    if !responseOk status then .error (w, .notOk)
    else
      match body with
      | none => .error (w, .jsonRejected)
      | some data =>
        match getReply data with
        | .error e => .error (w, e)
        | .ok botReply =>
          match addMessage w botReply "bot" with
          | .error e => .error (w, e)
          | .ok w =>
            let w := pushTurn w "model" botReply
            match speak w botReply with
            | .error e => .error (w, e)
            | .ok w => .ok w

/-- Lines 101 to 103: the `catch` block.  An exception in it leaves the widget
as it is at that point. -/
def catchBlock (w : Widget) (error : Thrown) : Widget :=
  let w := { w with consoleErrors := w.consoleErrors ++ [error] }
  match addMessage w (.str errorMessage) "bot" with
  | .ok w => w
  | .error _ => w

/-- Lines 104 to 108: the `finally` block. -/
def finallyBlock (w : Widget) : Widget :=
  let w := { w with typingHidden := true }
  { w with sendDisabled := false }

/-- Lines 84 to 108 of `sendMessage`: what one suspended call does when its
remote call resolves with `o`. -/
def sendMessageResume (w : Widget) (o : FetchOutcome) : Widget :=
  let w := { w with inFlight := w.inFlight - 1 }
  let w :=
    match tryBlock w o with
    | .ok w => w
    | .error (w, error) => catchBlock w error
  finallyBlock w

/-- One call of `sendMessage` run from its first line to its last, the remote
call resolving with `o` and no other handler running in between. -/
def sendMessage (w : Widget) (o : FetchOutcome) : Widget :=
  if jsTrim w.inputValue = "" then sendMessageStart w
  else sendMessageResume (sendMessageStart w) o

/-! The page and its events -/

/-- What the script finds when `DOMContentLoaded` fires: the state of the
elements of the page it looks up and of the browser it runs in.  The page
itself is not part of the script. -/
structure Page where
  /-- The initial `chatInput.value`. -/
  inputValue : String
  /-- Whether `typing-indicator` carries the class `hidden`. -/
  typingHidden : Bool
  /-- The initial `sendBtn.disabled`. -/
  sendDisabled : Bool
  /-- Whether `mic-btn` carries the class `recording`. -/
  micRecording : Bool
  /-- Whether `mic-btn` is styled `display: none`. -/
  micHidden : Bool
  /-- Whether `window.SpeechRecognition || window.webkitSpeechRecognition`
  is truthy (line 18). -/
  speechRecognition : Bool

/-- The body of the `DOMContentLoaded` listener (lines 2 to 142), the listeners
it registers apart: the widget once the script has run, or at the point
where an exception ends it. -/
def init (p : Page) : Widget :=
  let w : Widget :=
    { chatHistory := [], inputValue := p.inputValue, typingHidden := p.typingHidden,
      sendDisabled := p.sendDisabled, recognition := false,
      micRecording := p.micRecording, micHidden := p.micHidden, messages := [],
      spoken := [], requests := [], consoleErrors := [], inFlight := 0 }
  let w :=
    if p.speechRecognition then { w with recognition := true }
    else { w with micHidden := true }
  match addMessage w (.str welcomeMessage) "bot" with
  | .error _ => w
  | .ok w =>
    let w := pushTurn w "model" (.str welcomeMessage)
    match speak w (.str welcomeMessage) with
    | .error _ => w
    | .ok w => w

/-- The handler `recognition.onresult` (lines 33 to 37), up to the suspension
of the `sendMessage` call it makes. -/
def recognitionOnResult (w : Widget) (transcript : String) : Widget :=
  let w := { w with inputValue := transcript }
  sendMessageStart w

/-- The `keypress` listener of `chatInput` (lines 131 to 135), up to the
suspension of the `sendMessage` call it makes. -/
def keypressListener (w : Widget) (key : String) : Widget :=
  if key = "Enter" then sendMessageStart w else w

/-- The `click` listener of `micBtn` (lines 27 to 30). -/
def micClickListener (w : Widget) : Widget :=
  { w with micRecording := !w.micRecording }

/-- The handler `recognition.onend` (lines 39 to 41). -/
def recognitionOnEnd (w : Widget) : Widget :=
  { w with micRecording := false }

/-- What can happen to the widget once the script has run. -/
inductive Event where
  /-- The user edits the input field, leaving `value` in it. -/
  | input (value : String) : Event
  /-- The user clicks the send button. -/
  | sendClick : Event
  /-- The user presses the key `key` in the input field. -/
  | keypress (key : String) : Event
  /-- The user clicks the microphone button. -/
  | micClick : Event
  /-- Speech recognition delivers a final transcript. -/
  | speechResult (transcript : String) : Event
  /-- Speech recognition ends its capture. -/
  | speechEnd : Event
  /-- The remote call of a suspended `sendMessage` resolves. -/
  | resolved (o : FetchOutcome) : Event

/-- The widget after one event.  A browser dispatches no `click` to a disabled
button; the recognition handlers exist only when `recognition` was created;
a resolution needs a suspended call. -/
def handle (w : Widget) : Event → Widget
  | .input value => { w with inputValue := value }
  | .sendClick => if w.sendDisabled then w else sendMessageStart w
  | .keypress key => keypressListener w key
  | .micClick => if w.recognition then micClickListener w else w
  | .speechResult transcript =>
    if w.recognition then recognitionOnResult w transcript else w
  | .speechEnd => if w.recognition then recognitionOnEnd w else w
  | .resolved o => if w.inFlight = 0 then w else sendMessageResume w o

/-- The widget after a sequence of events, oldest first. -/
def run (w : Widget) (events : List Event) : Widget :=
  events.foldl handle w

/-- The turn `{ role: "user", parts: [{ text: text }] }`. -/
def userTurn (text : String) : Turn :=
  { role := "user", parts := [{ text := .str text }] }

/-- The turn `{ role: "model", parts: [{ text: reply }] }`. -/
def modelTurn (reply : JsVal) : Turn :=
  { role := "model", parts := [{ text := reply }] }

/-- A page in its idle state: empty input, typing indicator hidden, send button
enabled, speech recognition supported. -/
def idlePage : Page :=
  { inputValue := "", typingHidden := true, sendDisabled := false,
    micRecording := false, micHidden := false, speechRecognition := true }

/-- The remote call fails: the transport fails or the status is not a success
status. -/
def RemoteFailure : FetchOutcome → Prop
  | .rejected => True
  | .response status _ => responseOk status = false

/-- The remote call succeeds with the reply `r`: a success status and a JSON
object whose `reply` is the string `r`. -/
def RemoteSuccess (r : String) : FetchOutcome → Prop
  | .response status (some (.obj props)) =>
    responseOk status = true ∧ props.lookup "reply" = some (.str r)
  | _ => False

/-- The value the `try` block gets as `botReply` and renders, or what it
throws before it renders anything. -/
def replyOf : FetchOutcome → Except Thrown JsVal
  | .rejected => .error .fetchRejected
  | .response status body =>
    if !responseOk status then .error .notOk
    else
      match body with
      | none => .error .jsonRejected
      | some data =>
        match getReply data with
        | .error e => .error e
        | .ok botReply =>
          if hasStringConversion botReply then .ok botReply else .error .typeError

/-- The remote call leaves `sendMessage` without a reply to render: the
transport fails, the status is not a success status, the body is not JSON, the
body is the JSON value `null` (or `undefined`, which no JSON text parses to),
or `data.reply` has no string conversion. -/
def Unanswered : FetchOutcome → Prop
  | .rejected => True
  | .response status body =>
    responseOk status = false ∨ body = none ∨ body = some .null ∨ body = some .undefined ∨
    ∃ data botReply : JsVal,
      body = some data ∧ getReply data = .ok botReply ∧ hasStringConversion botReply = false

/-- A turn as the script pushes it: the role is `user` or `model` and `parts`
has exactly one entry.  Nothing is said of the `text` of that entry. -/
def PushedTurn (t : Turn) : Prop :=
  (t.role = "user" ∨ t.role = "model") ∧ ∃ text : JsVal, t.parts = [{ text := text }]

/-- A turn of the shape the wire protocol names: the role is `user` or `model`
and `parts` has exactly one entry, whose `text` is a string. -/
def WireTurn (t : Turn) : Prop :=
  (t.role = "user" ∨ t.role = "model") ∧ ∃ text : String, t.parts = [{ text := .str text }]

/-- A remote call that, when it is treated as a success, has a string for
`data.reply`. -/
def RepliesWithString : FetchOutcome → Prop
  | .response status (some data) =>
    responseOk status = true → ∀ botReply : JsVal, getReply data = .ok botReply →
      ∃ r : String, botReply = .str r
  | _ => True

/-- The object `{ text: ... }` of one part. -/
def partValue (p : Part) : JsVal :=
  .obj [("text", p.text)]

/-- The object `{ role: ..., parts: [...] }` of one turn. -/
def turnValue (t : Turn) : JsVal :=
  .obj [("role", .str t.role), ("parts", .arr (t.parts.map partValue))]

/-- The object `{ message: ..., history: ... }` handed to `JSON.stringify`
(lines 79 to 82). -/
def requestValue (r : ChatRequest) : JsVal :=
  .obj [("message", .str r.message), ("history", .arr (r.history.map turnValue))]

/-- The body of the request as sent: the JSON value that
`JSON.stringify({ message, history })` denotes. -/
def wireBody (r : ChatRequest) : JsVal :=
  serializeJSON (requestValue r)

/-! Scenarios -/

/-- The script has run on an idle page and the user has typed `Alice`. -/
def aliceWidget : Widget :=
  handle (init idlePage) (.input "Alice")

/-- The remote service answers 200 with `{"reply": "Nice to meet you, Alice!"}`. -/
def aliceOutcome : FetchOutcome :=
  .response 200 (some (.obj [("reply", .str "Nice to meet you, Alice!")]))

/-- The script has run on an idle page and the user has typed `Bob`. -/
def bobWidget : Widget :=
  handle (init idlePage) (.input "Bob")

/-- The remote service answers HTTP 500 with a body that is not JSON. -/
def serverError : FetchOutcome :=
  .response 500 none

/-- The remote service answers 200 with the JSON object `{}`. -/
def emptyObjectOutcome : FetchOutcome :=
  .response 200 (some (.obj []))

/-- The remote service answers 200 with `{"reply": {"toString": 0}}`. -/
def unprintableOutcome : FetchOutcome :=
  .response 200 (some (.obj [("reply", .obj [("toString", .num 0)])]))

/-- The script has run on an idle page, `Alice` was submitted and answered with
200 and `{}`, and the user has typed `Bob`. -/
def afterEmptyReply : Widget :=
  run (init idlePage)
    [.input "Alice", .sendClick, .resolved emptyObjectOutcome, .input "Bob"]

/-- The request the submission of `Bob` issues from `afterEmptyReply`. -/
def bobRequest : ChatRequest :=
  { url := "/chat", method := "POST", contentType := "application/json",
    message := "Bob",
    history := [modelTurn (.str welcomeMessage), userTurn "Alice", modelTurn .undefined,
      userTurn "Bob"] }

/-- The script has run on an idle page, the user has typed `Alice` and clicked
the send button: one remote call is in flight. -/
def awaitingAlice : Widget :=
  run (init idlePage) [.input "Alice", .sendClick]

/-! Basic facts -/

theorem jsTrim_eq_empty_of_whitespace (s : String)
    (h : ∀ c ∈ s.data, isJsWhiteSpace c = true) : jsTrim s = "" := by
  have h1 : s.data.dropWhile isJsWhiteSpace = [] := by
    rw [List.dropWhile_eq_nil_iff]; exact h
  simp [jsTrim, trimChars, h1]

theorem hasStringConversion_str (s : String) : hasStringConversion (.str s) = true := by
  simp [hasStringConversion]

theorem addMessage_str (w : Widget) (s sender : String) :
    addMessage w (.str s) sender = .ok { w with messages := w.messages ++ [(.str s, sender)] } := by
  simp [addMessage, hasStringConversion_str]

theorem speak_str (w : Widget) (s : String) :
    speak w (.str s) = .ok { w with spoken := w.spoken ++ [.str s] } := by
  simp [speak, hasStringConversion_str]

theorem sendMessageStart_of_nonempty (w : Widget) (h : jsTrim w.inputValue ≠ "") :
    sendMessageStart w =
      { w with
        messages := w.messages ++ [(.str (jsTrim w.inputValue), "user")]
        chatHistory := w.chatHistory ++ [userTurn (jsTrim w.inputValue)]
        inputValue := ""
        typingHidden := false
        sendDisabled := true
        requests := w.requests ++
          [{ url := "/chat", method := "POST", contentType := "application/json",
             message := jsTrim w.inputValue,
             history := w.chatHistory ++ [userTurn (jsTrim w.inputValue)] }]
        inFlight := w.inFlight + 1 } := by
  simp [sendMessageStart, h, addMessage_str, pushTurn, userTurn]

theorem sendMessageStart_of_empty (w : Widget) (h : jsTrim w.inputValue = "") :
    sendMessageStart w = w := by
  simp [sendMessageStart, h]

theorem tryBlock_of_thrown (w : Widget) (o : FetchOutcome) (e : Thrown)
    (h : replyOf o = .error e) : tryBlock w o = .error (w, e) := by
  cases o with
  | rejected =>
    simp only [replyOf, Except.error.injEq] at h
    subst h; rfl
  | response status body =>
    cases hOk : responseOk status with
    | false =>
      simp only [replyOf, hOk, Bool.not_false, if_true, Except.error.injEq] at h
      subst h; simp [tryBlock, hOk]
    | true =>
      cases body with
      | none =>
        simp [replyOf, hOk] at h
        subst h; simp [tryBlock, hOk]
      | some data =>
        cases hR : getReply data with
        | error e1 =>
          simp [replyOf, hOk, hR] at h
          subst h; simp [tryBlock, hOk, hR]
        | ok botReply =>
          cases hS : hasStringConversion botReply with
          | false =>
            simp [replyOf, hOk, hR, hS] at h
            subst h; simp [tryBlock, hOk, hR, addMessage, hS]
          | true => simp [replyOf, hOk, hR, hS] at h

theorem tryBlock_of_reply (w : Widget) (o : FetchOutcome) (botReply : JsVal)
    (h : replyOf o = .ok botReply) :
    tryBlock w o = .ok
      { w with
        messages := w.messages ++ [(botReply, "bot")]
        chatHistory := w.chatHistory ++ [modelTurn botReply]
        spoken := w.spoken ++ [botReply] } := by
  cases o with
  | rejected => simp [replyOf] at h
  | response status body =>
    cases hOk : responseOk status with
    | false => simp [replyOf, hOk] at h
    | true =>
      cases body with
      | none => simp [replyOf, hOk] at h
      | some data =>
        cases hR : getReply data with
        | error e1 => simp [replyOf, hOk, hR] at h
        | ok v =>
          cases hS : hasStringConversion v with
          | false => simp [replyOf, hOk, hR, hS] at h
          | true =>
            simp [replyOf, hOk, hR, hS] at h
            subst h
            simp [tryBlock, hOk, hR, addMessage, speak, pushTurn, modelTurn, hS]

theorem sendMessageResume_of_thrown (w : Widget) (o : FetchOutcome) (e : Thrown)
    (h : replyOf o = .error e) :
    sendMessageResume w o =
      { w with
        inFlight := w.inFlight - 1
        consoleErrors := w.consoleErrors ++ [e]
        messages := w.messages ++ [(.str errorMessage, "bot")]
        typingHidden := true
        sendDisabled := false } := by
  simp [sendMessageResume, tryBlock_of_thrown _ o e h, catchBlock, finallyBlock, addMessage_str]

theorem sendMessageResume_of_reply (w : Widget) (o : FetchOutcome) (botReply : JsVal)
    (h : replyOf o = .ok botReply) :
    sendMessageResume w o =
      { w with
        inFlight := w.inFlight - 1
        messages := w.messages ++ [(botReply, "bot")]
        chatHistory := w.chatHistory ++ [modelTurn botReply]
        spoken := w.spoken ++ [botReply]
        typingHidden := true
        sendDisabled := false } := by
  simp [sendMessageResume, tryBlock_of_reply _ o botReply h, finallyBlock]

theorem replyOf_of_failure (o : FetchOutcome) (h : RemoteFailure o) :
    ∃ e : Thrown, replyOf o = .error e := by
  cases o with
  | rejected => exact ⟨_, rfl⟩
  | response status body =>
    have h1 : responseOk status = false := h
    exact ⟨.notOk, by simp [replyOf, h1]⟩

theorem replyOf_of_success (r : String) (o : FetchOutcome) (h : RemoteSuccess r o) :
    replyOf o = .ok (.str r) := by
  match o, h with
  | .response status (some (.obj props)), ⟨hs, hr⟩ =>
    simp [replyOf, hs, getReply, hr, hasStringConversion_str]

theorem replyOf_of_unanswered (o : FetchOutcome) (h : Unanswered o) :
    ∃ e : Thrown, replyOf o = .error e := by
  cases o with
  | rejected => exact ⟨_, rfl⟩
  | response status body =>
    cases hOk : responseOk status with
    | false => exact ⟨.notOk, by simp [replyOf, hOk]⟩
    | true =>
      rcases h with h | h | h | h | ⟨data, botReply, h, hR, hS⟩
      · rw [hOk] at h; cases h
      · subst h; exact ⟨.jsonRejected, by simp [replyOf, hOk]⟩
      · subst h; exact ⟨.typeError, by simp [replyOf, hOk, getReply]⟩
      · subst h; exact ⟨.typeError, by simp [replyOf, hOk, getReply]⟩
      · subst h; exact ⟨.typeError, by simp [replyOf, hOk, hR, hS]⟩

theorem getReply_total (data : JsVal) (h1 : data ≠ .null) (h2 : data ≠ .undefined) :
    ∃ botReply : JsVal, getReply data = .ok botReply := by
  cases data with
  | undefined => exact absurd rfl h2
  | null => exact absurd rfl h1
  | bool b => exact ⟨_, rfl⟩
  | num n => exact ⟨_, rfl⟩
  | str s => exact ⟨_, rfl⟩
  | arr items => exact ⟨_, rfl⟩
  | obj props =>
    cases hL : props.lookup "reply" with
    | none => exact ⟨.undefined, by simp [getReply, hL]⟩
    | some v => exact ⟨v, by simp [getReply, hL]⟩

theorem replyOf_of_answered (o : FetchOutcome) (h : ¬ Unanswered o) :
    ∃ (status : Nat) (data botReply : JsVal),
      o = .response status (some data) ∧ responseOk status = true ∧
      getReply data = .ok botReply ∧ hasStringConversion botReply = true ∧
      replyOf o = .ok botReply := by
  cases o with
  | rejected => exact absurd trivial h
  | response status body =>
    cases hOk : responseOk status with
    | false => exact absurd (Or.inl hOk) h
    | true =>
      cases body with
      | none => exact absurd (Or.inr (Or.inl rfl)) h
      | some data =>
        have h1 : data ≠ .null := fun hd => h (Or.inr (Or.inr (Or.inl (by rw [hd]))))
        have h2 : data ≠ .undefined :=
          fun hd => h (Or.inr (Or.inr (Or.inr (Or.inl (by rw [hd])))))
        obtain ⟨botReply, hR⟩ := getReply_total data h1 h2
        cases hS : hasStringConversion botReply with
        | false => exact absurd (Or.inr (Or.inr (Or.inr (Or.inr ⟨data, botReply, rfl, hR, hS⟩)))) h
        | true =>
          exact ⟨status, data, botReply, rfl, hOk, hR, hS, by simp [replyOf, hOk, hR, hS]⟩

theorem replyOf_ok (o : FetchOutcome) (botReply : JsVal) (h : replyOf o = .ok botReply) :
    ∃ (status : Nat) (data : JsVal),
      o = .response status (some data) ∧ responseOk status = true ∧
      getReply data = .ok botReply := by
  cases o with
  | rejected => simp [replyOf] at h
  | response status body =>
    cases hOk : responseOk status with
    | false => simp [replyOf, hOk] at h
    | true =>
      cases body with
      | none => simp [replyOf, hOk] at h
      | some data =>
        cases hR : getReply data with
        | error e1 => simp [replyOf, hOk, hR] at h
        | ok v =>
          cases hS : hasStringConversion v with
          | false => simp [replyOf, hOk, hR, hS] at h
          | true =>
            simp [replyOf, hOk, hR, hS] at h
            subst h
            exact ⟨status, data, rfl, hOk, hR⟩

theorem init_chatHistory (p : Page) :
    (init p).chatHistory = [modelTurn (.str welcomeMessage)] := by
  cases h : p.speechRecognition <;> simp [init, h, addMessage_str, pushTurn, speak_str, modelTurn]

theorem init_log (p : Page) :
    (init p).messages = [(.str welcomeMessage, "bot")] ∧
    (init p).spoken = [.str welcomeMessage] ∧
    (init p).requests = [] ∧ (init p).consoleErrors = [] ∧ (init p).inFlight = 0 := by
  cases h : p.speechRecognition <;> simp [init, h, addMessage_str, pushTurn, speak_str]

theorem sendMessageStart_chatHistory (w : Widget) :
    (sendMessageStart w).chatHistory = w.chatHistory ∨
    (sendMessageStart w).chatHistory = w.chatHistory ++ [userTurn (jsTrim w.inputValue)] := by
  by_cases h : jsTrim w.inputValue = ""
  · left; rw [sendMessageStart_of_empty w h]
  · right; rw [sendMessageStart_of_nonempty w h]

theorem sendMessageResume_chatHistory (w : Widget) (o : FetchOutcome) :
    (sendMessageResume w o).chatHistory = w.chatHistory ∨
    ∃ (status : Nat) (data botReply : JsVal),
      o = .response status (some data) ∧ responseOk status = true ∧
      getReply data = .ok botReply ∧
      (sendMessageResume w o).chatHistory = w.chatHistory ++ [modelTurn botReply] := by
  cases h : replyOf o with
  | error e => left; rw [sendMessageResume_of_thrown w o e h]
  | ok botReply =>
    right
    obtain ⟨status, data, ho, hOk, hR⟩ := replyOf_ok o botReply h
    exact ⟨status, data, botReply, ho, hOk, hR, by rw [sendMessageResume_of_reply w o botReply h]⟩

/-- What an event appends to the history: nothing, a user turn, or the `model`
turn of the reply its remote call resolved with. -/
theorem handle_chatHistory (w : Widget) (e : Event) :
    (handle w e).chatHistory = w.chatHistory ∨
    (∃ text : String, (handle w e).chatHistory = w.chatHistory ++ [userTurn text]) ∨
    ∃ (status : Nat) (data botReply : JsVal),
      e = .resolved (.response status (some data)) ∧ responseOk status = true ∧
      getReply data = .ok botReply ∧
      (handle w e).chatHistory = w.chatHistory ++ [modelTurn botReply] := by
  have hStart : ∀ v : Widget, v.chatHistory = w.chatHistory →
      ((sendMessageStart v).chatHistory = w.chatHistory ∨
       ∃ text : String, (sendMessageStart v).chatHistory = w.chatHistory ++ [userTurn text]) := by
    intro v hv
    rcases sendMessageStart_chatHistory v with h | h
    · left; rw [h, hv]
    · right; exact ⟨_, by rw [h, hv]⟩
  have hLift : ∀ v : Widget,
      (v.chatHistory = w.chatHistory ∨
        ∃ text : String, v.chatHistory = w.chatHistory ++ [userTurn text]) →
      (v.chatHistory = w.chatHistory ∨
        (∃ text : String, v.chatHistory = w.chatHistory ++ [userTurn text]) ∨
        ∃ (status : Nat) (data botReply : JsVal),
          e = .resolved (.response status (some data)) ∧ responseOk status = true ∧
          getReply data = .ok botReply ∧
          v.chatHistory = w.chatHistory ++ [modelTurn botReply]) := by
    intro v hv
    rcases hv with h | h
    · exact Or.inl h
    · exact Or.inr (Or.inl h)
  cases e with
  | input value => left; rfl
  | sendClick =>
    by_cases h : w.sendDisabled = true
    · left; simp [handle, h]
    · simpa [handle, h] using hLift _ (hStart w rfl)
  | keypress key =>
    by_cases h : key = "Enter"
    · simpa [handle, keypressListener, h] using hLift _ (hStart w rfl)
    · left; simp [handle, keypressListener, h]
  | micClick =>
    left
    by_cases h : w.recognition = true <;> simp [handle, micClickListener, h]
  | speechResult transcript =>
    by_cases h : w.recognition = true
    · simpa [handle, recognitionOnResult, h] using
        hLift _ (hStart { w with inputValue := transcript } rfl)
    · left; simp [handle, h]
  | speechEnd =>
    left
    by_cases h : w.recognition = true <;> simp [handle, recognitionOnEnd, h]
  | resolved o =>
    by_cases h : w.inFlight = 0
    · left; simp [handle, h]
    · rcases sendMessageResume_chatHistory w o with h1 | ⟨status, data, v, ho, hOk, hR, h1⟩
      · left; simpa [handle, h] using h1
      · right; right
        exact ⟨status, data, v, by rw [ho], hOk, hR, by simpa [handle, h] using h1⟩

theorem pushedTurn_userTurn (text : String) : PushedTurn (userTurn text) :=
  ⟨Or.inl rfl, _, rfl⟩

theorem pushedTurn_modelTurn (reply : JsVal) : PushedTurn (modelTurn reply) :=
  ⟨Or.inr rfl, _, rfl⟩

theorem wireTurn_userTurn (text : String) : WireTurn (userTurn text) :=
  ⟨Or.inl rfl, _, rfl⟩

theorem wireTurn_modelTurn (reply : String) : WireTurn (modelTurn (.str reply)) :=
  ⟨Or.inr rfl, _, rfl⟩

theorem forall_mem_append_singleton {P : Turn → Prop} (ts : List Turn) (u : Turn)
    (hts : ∀ t ∈ ts, P t) (hu : P u) : ∀ t ∈ ts ++ [u], P t := by
  intro t ht
  rcases List.mem_append.mp ht with h1 | h1
  · exact hts t h1
  · rw [List.mem_singleton.mp h1]; exact hu

/-- Every turn of the history is a turn as pushed, and every turn with the
role `user` holds a string. -/
theorem run_chatHistory_pushed (events : List Event) (w : Widget)
    (hw : ∀ t ∈ w.chatHistory, PushedTurn t ∧ (t.role = "user" → WireTurn t)) :
    ∀ t ∈ (run w events).chatHistory, PushedTurn t ∧ (t.role = "user" → WireTurn t) := by
  induction events generalizing w with
  | nil => exact hw
  | cons e rest ih =>
    apply ih (handle w e)
    rcases handle_chatHistory w e with h | ⟨text, h⟩ | ⟨status, data, v, -, -, -, h⟩
    · rw [h]; exact hw
    · rw [h]
      exact forall_mem_append_singleton _ _ hw
        ⟨pushedTurn_userTurn text, fun _ => wireTurn_userTurn text⟩
    · rw [h]
      refine forall_mem_append_singleton _ _ hw ⟨pushedTurn_modelTurn v, fun hRole => ?_⟩
      have hModel : ("model" : String) = "user" := hRole
      exact absurd hModel (by decide)

/-- While every remote call that resolves replies with a string, every turn of
the history has the shape of the wire protocol. -/
theorem run_chatHistory_wire (events : List Event) (w : Widget)
    (hEvents : ∀ o : FetchOutcome, .resolved o ∈ events → RepliesWithString o)
    (hw : ∀ t ∈ w.chatHistory, WireTurn t) :
    ∀ t ∈ (run w events).chatHistory, WireTurn t := by
  induction events generalizing w with
  | nil => exact hw
  | cons e rest ih =>
    apply ih (handle w e) (fun o ho => hEvents o (List.mem_cons_of_mem _ ho))
    rcases handle_chatHistory w e with h | ⟨text, h⟩ | ⟨status, data, v, he, hOk, hR, h⟩
    · rw [h]; exact hw
    · rw [h]; exact forall_mem_append_singleton _ _ hw (wireTurn_userTurn text)
    · rw [h]
      have hStr : RepliesWithString (.response status (some data)) :=
        hEvents _ (by rw [he]; exact List.mem_cons_self _ _)
      obtain ⟨r, hr⟩ := hStr hOk v hR
      rw [hr]
      exact forall_mem_append_singleton _ _ hw (wireTurn_modelTurn r)

theorem serializeJSON_turnValue (t : Turn) (h : WireTurn t) :
    serializeJSON (turnValue t) = turnValue t := by
  obtain ⟨-, text, hp⟩ := h
  simp [turnValue, partValue, hp, serializeJSON, serializeProps, serializeItems]

theorem serializeItems_turnValue (ts : List Turn) (h : ∀ t ∈ ts, WireTurn t) :
    serializeItems (ts.map turnValue) = ts.map turnValue := by
  induction ts with
  | nil => rfl
  | cons t rest ih =>
    have ht := serializeJSON_turnValue t (h t (List.mem_cons_self _ _))
    have hrest := ih (fun u hu => h u (List.mem_cons_of_mem _ hu))
    have hstep : serializeItems (turnValue t :: rest.map turnValue) =
        serializeJSON (turnValue t) :: serializeItems (rest.map turnValue) := by
      simp [turnValue, serializeItems]
    rw [List.map_cons, hstep, ht, hrest]

theorem wireBody_of_wireTurns (r : ChatRequest) (h : ∀ t ∈ r.history, WireTurn t) :
    wireBody r = requestValue r := by
  have hItems := serializeItems_turnValue r.history h
  simp [wireBody, requestValue, serializeJSON, serializeProps, hItems]

theorem requests_after_resolution (w : Widget) (o : FetchOutcome) :
    (sendMessage w o).requests = (sendMessageStart w).requests := by
  by_cases hText : jsTrim w.inputValue = ""
  · rw [sendMessage, if_pos hText]
  · rw [sendMessage, if_neg hText]
    cases h : replyOf o with
    | error e => rw [sendMessageResume_of_thrown _ o e h]
    | ok botReply => rw [sendMessageResume_of_reply _ o botReply h]

theorem sendMessage_of_thrown (w : Widget) (o : FetchOutcome) (e : Thrown)
    (hText : jsTrim w.inputValue ≠ "") (h : replyOf o = .error e) :
    sendMessage w o =
      { w with
        chatHistory := w.chatHistory ++ [userTurn (jsTrim w.inputValue)]
        messages := w.messages ++
          [(.str (jsTrim w.inputValue), "user"), (.str errorMessage, "bot")]
        consoleErrors := w.consoleErrors ++ [e]
        inputValue := ""
        typingHidden := true
        sendDisabled := false
        requests := w.requests ++
          [{ url := "/chat", method := "POST", contentType := "application/json",
             message := jsTrim w.inputValue,
             history := w.chatHistory ++ [userTurn (jsTrim w.inputValue)] }] } := by
  rw [sendMessage, if_neg hText, sendMessageResume_of_thrown _ o e h,
    sendMessageStart_of_nonempty w hText]
  simp

theorem sendMessage_of_reply (w : Widget) (o : FetchOutcome) (botReply : JsVal)
    (hText : jsTrim w.inputValue ≠ "") (h : replyOf o = .ok botReply) :
    sendMessage w o =
      { w with
        chatHistory := w.chatHistory ++ [userTurn (jsTrim w.inputValue), modelTurn botReply]
        messages := w.messages ++ [(.str (jsTrim w.inputValue), "user"), (botReply, "bot")]
        spoken := w.spoken ++ [botReply]
        inputValue := ""
        typingHidden := true
        sendDisabled := false
        requests := w.requests ++
          [{ url := "/chat", method := "POST", contentType := "application/json",
             message := jsTrim w.inputValue,
             history := w.chatHistory ++ [userTurn (jsTrim w.inputValue)] }] } := by
  rw [sendMessage, if_neg hText, sendMessageResume_of_reply _ o botReply h,
    sendMessageStart_of_nonempty w hText]
  simp

theorem sendMessage_failure_chatHistory (w : Widget) (o : FetchOutcome)
    (hText : jsTrim w.inputValue ≠ "") (hFail : RemoteFailure o) :
    (sendMessage w o).chatHistory = w.chatHistory ++ [userTurn (jsTrim w.inputValue)] := by
  obtain ⟨e, he⟩ := replyOf_of_failure o hFail
  rw [sendMessage_of_thrown w o e hText he]

theorem sendMessageStart_locks (w : Widget) (hText : jsTrim w.inputValue ≠ "") :
    (sendMessageStart w).sendDisabled = true ∧ (sendMessageStart w).typingHidden = false ∧
    (sendMessageStart w).inFlight = w.inFlight + 1 := by
  rw [sendMessageStart_of_nonempty w hText]
  exact ⟨rfl, rfl, rfl⟩

theorem sendMessageResume_unlocks (w : Widget) (o : FetchOutcome) :
    (sendMessageResume w o).sendDisabled = false ∧ (sendMessageResume w o).typingHidden = true ∧
    (sendMessageResume w o).inFlight = w.inFlight - 1 := by
  cases h : replyOf o with
  | error e => rw [sendMessageResume_of_thrown w o e h]; exact ⟨rfl, rfl, rfl⟩
  | ok botReply => rw [sendMessageResume_of_reply w o botReply h]; exact ⟨rfl, rfl, rfl⟩

theorem sendMessageStart_idle (w : Widget)
    (hw : w.inFlight = 0 → w.sendDisabled = false ∧ w.typingHidden = true) :
    (sendMessageStart w).inFlight = 0 →
      (sendMessageStart w).sendDisabled = false ∧ (sendMessageStart w).typingHidden = true := by
  by_cases h : jsTrim w.inputValue = ""
  · rw [sendMessageStart_of_empty w h]; exact hw
  · intro h0
    rw [(sendMessageStart_locks w h).2.2] at h0
    exact absurd h0 (Nat.succ_ne_zero _)

theorem handle_idle (w : Widget) (e : Event)
    (hw : w.inFlight = 0 → w.sendDisabled = false ∧ w.typingHidden = true) :
    (handle w e).inFlight = 0 →
      (handle w e).sendDisabled = false ∧ (handle w e).typingHidden = true := by
  cases e with
  | input value => exact hw
  | sendClick =>
    by_cases h : w.sendDisabled = true
    · simpa [handle, h] using hw
    · simpa [handle, h] using sendMessageStart_idle w hw
  | keypress key =>
    by_cases h : key = "Enter"
    · simpa [handle, keypressListener, h] using sendMessageStart_idle w hw
    · simpa [handle, keypressListener, h] using hw
  | micClick =>
    by_cases h : w.recognition = true
    · simpa [handle, micClickListener, h] using hw
    · simpa [handle, h] using hw
  | speechResult transcript =>
    by_cases h : w.recognition = true
    · simpa [handle, recognitionOnResult, h] using
        sendMessageStart_idle { w with inputValue := transcript } hw
    · simpa [handle, h] using hw
  | speechEnd =>
    by_cases h : w.recognition = true
    · simpa [handle, recognitionOnEnd, h] using hw
    · simpa [handle, h] using hw
  | resolved o =>
    by_cases h : w.inFlight = 0
    · simpa [handle, h] using hw
    · intro _
      have hU := sendMessageResume_unlocks w o
      simp only [handle, if_neg h]
      exact ⟨hU.1, hU.2.1⟩

theorem run_idle (events : List Event) (w : Widget)
    (hw : w.inFlight = 0 → w.sendDisabled = false ∧ w.typingHidden = true) :
    (run w events).inFlight = 0 →
      (run w events).sendDisabled = false ∧ (run w events).typingHidden = true := by
  induction events generalizing w with
  | nil => exact hw
  | cons e rest ih => exact ih (handle w e) (handle_idle w e hw)

theorem idle_when_nothing_in_flight (p : Page) (events : List Event)
    (hSend : p.sendDisabled = false) (hTyping : p.typingHidden = true)
    (hIdle : (run (init p) events).inFlight = 0) :
    (run (init p) events).sendDisabled = false ∧
    (run (init p) events).typingHidden = true := by
  apply run_idle events (init p) _ hIdle
  intro _
  cases h : p.speechRecognition <;>
    simp [init, h, addMessage_str, pushTurn, speak_str, hSend, hTyping]

/-! The claims -/

/-- C1. A submission whose trimmed text is not empty and whose remote call
succeeds with the reply `r` leaves the history equal to the prior history
followed by one user turn and then one `model` turn carrying `r`. -/
theorem success_appends_user_then_model (w : Widget) (o : FetchOutcome) (r : String)
    (hText : jsTrim w.inputValue ≠ "") (hOk : RemoteSuccess r o) :
    (sendMessage w o).chatHistory =
      w.chatHistory ++ [userTurn (jsTrim w.inputValue), modelTurn (.str r)] := by
  rw [sendMessage_of_reply w o (.str r) hText (replyOf_of_success r o hOk)]

theorem success_appends_user_then_model_witness :
    jsTrim aliceWidget.inputValue ≠ "" ∧
    RemoteSuccess "Nice to meet you, Alice!" aliceOutcome ∧
    (sendMessage aliceWidget aliceOutcome).chatHistory =
      aliceWidget.chatHistory ++
        [userTurn (jsTrim aliceWidget.inputValue), modelTurn (.str "Nice to meet you, Alice!")] :=
  ⟨by decide, ⟨rfl, rfl⟩,
    success_appends_user_then_model aliceWidget aliceOutcome "Nice to meet you, Alice!"
      (by decide) ⟨rfl, rfl⟩⟩

/-- C2. A submission whose trimmed text is not empty and whose remote call
fails (transport failure or a status that is not a success status) leaves the
history equal to the prior history followed by the user turn only, renders
the user message and then the fixed error message as `bot`, speaks nothing
and leaves the send button enabled. -/
theorem failure_renders_error_and_reenables (w : Widget) (o : FetchOutcome)
    (hText : jsTrim w.inputValue ≠ "") (hFail : RemoteFailure o) :
    (sendMessage w o).chatHistory = w.chatHistory ++ [userTurn (jsTrim w.inputValue)] ∧
    (sendMessage w o).messages =
      w.messages ++ [(.str (jsTrim w.inputValue), "user"),
        (.str "Error: Could not get a response from the server.", "bot")] ∧
    (sendMessage w o).spoken = w.spoken ∧
    (sendMessage w o).sendDisabled = false := by
  obtain ⟨e, he⟩ := replyOf_of_failure o hFail
  rw [sendMessage_of_thrown w o e hText he]
  simp [errorMessage]

/-- C4. With an input that is empty or holds white space only, `sendMessage`
changes nothing: the widget after the call, suspended or run to its end, is
the widget before it. -/
theorem blank_input_is_noop (w : Widget) (o : FetchOutcome)
    (hBlank : ∀ c ∈ w.inputValue.data, isJsWhiteSpace c = true) :
    sendMessageStart w = w ∧ sendMessage w o = w := by
  have h := jsTrim_eq_empty_of_whitespace w.inputValue hBlank
  simp [sendMessage, sendMessageStart_of_empty w h, h]

theorem failure_renders_error_and_reenables_witness :
    jsTrim bobWidget.inputValue ≠ "" ∧ RemoteFailure serverError ∧
    (sendMessage bobWidget serverError).chatHistory =
      bobWidget.chatHistory ++ [userTurn (jsTrim bobWidget.inputValue)] ∧
    (sendMessage bobWidget serverError).messages =
      bobWidget.messages ++ [(.str (jsTrim bobWidget.inputValue), "user"),
        (.str "Error: Could not get a response from the server.", "bot")] ∧
    (sendMessage bobWidget serverError).spoken = bobWidget.spoken ∧
    (sendMessage bobWidget serverError).sendDisabled = false :=
  ⟨by decide, rfl, failure_renders_error_and_reenables bobWidget serverError (by decide) rfl⟩

theorem blank_input_is_noop_witness :
    (∀ c ∈ (handle (init idlePage) (.input " \t ")).inputValue.data, isJsWhiteSpace c = true) ∧
    sendMessageStart (handle (init idlePage) (.input " \t ")) =
      handle (init idlePage) (.input " \t ") ∧
    sendMessage (handle (init idlePage) (.input " \t ")) aliceOutcome =
      handle (init idlePage) (.input " \t ") :=
  ⟨by decide, blank_input_is_noop _ aliceOutcome (by decide)⟩

/-- C3, as stated, fails: after the submission of `Bob` is answered with
HTTP 500 the history is not the history before the call; it is one turn
longer. -/
theorem failed_call_changes_history :
    RemoteFailure serverError ∧
    ¬ ((sendMessage bobWidget serverError).chatHistory = bobWidget.chatHistory) ∧
    ¬ ((sendMessage bobWidget serverError).chatHistory.length = bobWidget.chatHistory.length) ∧
    (sendMessage bobWidget serverError).chatHistory.length = 2 ∧
    bobWidget.chatHistory.length = 1 := by
  have h2 : (sendMessage bobWidget serverError).chatHistory.length = 2 := rfl
  have h1 : bobWidget.chatHistory.length = 1 := rfl
  refine ⟨rfl, ?_, ?_, h2, h1⟩
  · intro h
    have := congrArg List.length h
    rw [h2, h1] at this
    exact absurd this (by decide)
  · rw [h2, h1]; decide

/-- C3, amended.  On a failed remote call no `model` turn is appended, but the
user turn of the failed attempt stays: the history after the call is the
history before it followed by that user turn, one turn longer, and a retry
with the text `t` sends the history before the failed call followed by the
user turn of the failed attempt and the user turn of the retry. -/
theorem failed_attempt_stays_in_history (w : Widget) (o : FetchOutcome) (t : String)
    (hText : jsTrim w.inputValue ≠ "") (hFail : RemoteFailure o)
    (hRetry : jsTrim t ≠ "") :
    (sendMessage w o).chatHistory = w.chatHistory ++ [userTurn (jsTrim w.inputValue)] ∧
    (sendMessage w o).chatHistory.length = w.chatHistory.length + 1 ∧
    (sendMessageStart (handle (sendMessage w o) (.input t))).requests =
      (sendMessage w o).requests ++
        [{ url := "/chat", method := "POST", contentType := "application/json",
           message := jsTrim t,
           history := w.chatHistory ++ [userTurn (jsTrim w.inputValue), userTurn (jsTrim t)] }] := by
  have hH := sendMessage_failure_chatHistory w o hText hFail
  refine ⟨hH, by simp [hH], ?_⟩
  have hIn : jsTrim (handle (sendMessage w o) (.input t)).inputValue ≠ "" := by
    simpa [handle] using hRetry
  rw [sendMessageStart_of_nonempty _ hIn]
  simp [handle, hH]

theorem failed_attempt_stays_in_history_witness :
    jsTrim bobWidget.inputValue ≠ "" ∧ RemoteFailure serverError ∧ jsTrim "Bob again" ≠ "" ∧
    (sendMessage bobWidget serverError).chatHistory =
      bobWidget.chatHistory ++ [userTurn (jsTrim bobWidget.inputValue)] ∧
    (sendMessage bobWidget serverError).chatHistory.length = bobWidget.chatHistory.length + 1 ∧
    (sendMessageStart (handle (sendMessage bobWidget serverError) (.input "Bob again"))).requests =
      (sendMessage bobWidget serverError).requests ++
        [{ url := "/chat", method := "POST", contentType := "application/json",
           message := jsTrim "Bob again",
           history := bobWidget.chatHistory ++
             [userTurn (jsTrim bobWidget.inputValue), userTurn (jsTrim "Bob again")] }] :=
  ⟨by decide, rfl, by decide,
    failed_attempt_stays_in_history bobWidget serverError "Bob again" (by decide) rfl
      (by decide)⟩

/-- C7, as stated, fails: a 200 response whose JSON body is the object `{}`, with
no `reply` field, is not treated as a failure.  `data.reply` is `undefined`;
`sendMessage` renders it as `bot`, appends a `model` turn carrying it and
speaks it, and renders no error message. -/
theorem missing_reply_takes_success_path :
    getReply (.obj []) = .ok .undefined ∧
    (sendMessage aliceWidget emptyObjectOutcome).chatHistory =
      aliceWidget.chatHistory ++ [userTurn "Alice", modelTurn .undefined] ∧
    (sendMessage aliceWidget emptyObjectOutcome).messages =
      aliceWidget.messages ++ [(.str "Alice", "user"), (.undefined, "bot")] ∧
    (sendMessage aliceWidget emptyObjectOutcome).spoken = aliceWidget.spoken ++ [.undefined] ∧
    (sendMessage aliceWidget emptyObjectOutcome).consoleErrors = [] ∧
    ¬ ((sendMessage aliceWidget emptyObjectOutcome).chatHistory =
        aliceWidget.chatHistory ++ [userTurn "Alice"]) ∧
    ¬ ((sendMessage aliceWidget emptyObjectOutcome).spoken = aliceWidget.spoken) := by
  refine ⟨rfl, rfl, rfl, rfl, rfl, ?_, ?_⟩
  · intro h
    have := congrArg List.length h
    exact absurd this (by decide)
  · intro h
    have := congrArg List.length h
    exact absurd this (by decide)

/-- C7, amended.  The failure path is taken exactly when the remote call leaves
no reply to render: the transport fails, the status is not a success status,
the body is not JSON, the body is `null`, or `data.reply` has no string
conversion.  Then the fixed error message is rendered, no `model` turn is
appended and nothing is spoken.  Every other response is a success, whatever
the shape of its body: with `botReply` the value of `data.reply` (`undefined`
when there is no such field), `sendMessage` renders `botReply` as `bot`,
appends a `model` turn carrying it and speaks it. -/
theorem reply_or_failure_by_outcome (w : Widget) (o : FetchOutcome)
    (hText : jsTrim w.inputValue ≠ "") :
    (Unanswered o →
      (sendMessage w o).chatHistory = w.chatHistory ++ [userTurn (jsTrim w.inputValue)] ∧
      (sendMessage w o).messages =
        w.messages ++ [(.str (jsTrim w.inputValue), "user"), (.str errorMessage, "bot")] ∧
      (sendMessage w o).spoken = w.spoken) ∧
    (¬ Unanswered o →
      ∃ (status : Nat) (data botReply : JsVal),
        o = .response status (some data) ∧ responseOk status = true ∧
        getReply data = .ok botReply ∧ hasStringConversion botReply = true ∧
        (sendMessage w o).chatHistory =
          w.chatHistory ++ [userTurn (jsTrim w.inputValue), modelTurn botReply] ∧
        (sendMessage w o).messages =
          w.messages ++ [(.str (jsTrim w.inputValue), "user"), (botReply, "bot")] ∧
        (sendMessage w o).spoken = w.spoken ++ [botReply]) := by
  constructor
  · intro hU
    obtain ⟨e, he⟩ := replyOf_of_unanswered o hU
    rw [sendMessage_of_thrown w o e hText he]
    exact ⟨rfl, rfl, rfl⟩
  · intro hU
    obtain ⟨status, data, botReply, ho, hOk, hR, hS, hReply⟩ := replyOf_of_answered o hU
    refine ⟨status, data, botReply, ho, hOk, hR, hS, ?_⟩
    rw [sendMessage_of_reply w o botReply hText hReply]
    exact ⟨rfl, rfl, rfl⟩

theorem reply_or_failure_by_outcome_witness :
    jsTrim aliceWidget.inputValue ≠ "" ∧
    (Unanswered unprintableOutcome →
      (sendMessage aliceWidget unprintableOutcome).chatHistory =
        aliceWidget.chatHistory ++ [userTurn (jsTrim aliceWidget.inputValue)] ∧
      (sendMessage aliceWidget unprintableOutcome).messages =
        aliceWidget.messages ++
          [(.str (jsTrim aliceWidget.inputValue), "user"), (.str errorMessage, "bot")] ∧
      (sendMessage aliceWidget unprintableOutcome).spoken = aliceWidget.spoken) ∧
    (¬ Unanswered unprintableOutcome →
      ∃ (status : Nat) (data botReply : JsVal),
        unprintableOutcome = .response status (some data) ∧ responseOk status = true ∧
        getReply data = .ok botReply ∧ hasStringConversion botReply = true ∧
        (sendMessage aliceWidget unprintableOutcome).chatHistory =
          aliceWidget.chatHistory ++
            [userTurn (jsTrim aliceWidget.inputValue), modelTurn botReply] ∧
        (sendMessage aliceWidget unprintableOutcome).messages =
          aliceWidget.messages ++
            [(.str (jsTrim aliceWidget.inputValue), "user"), (botReply, "bot")] ∧
        (sendMessage aliceWidget unprintableOutcome).spoken =
          aliceWidget.spoken ++ [botReply]) :=
  ⟨by decide, reply_or_failure_by_outcome aliceWidget unprintableOutcome (by decide)⟩

/-- A 200 response whose `reply` is the object `{"toString": 0}` is left
unanswered: line 121 throws on it, so the error message is rendered, the
history keeps the user turn only and nothing is spoken. -/
theorem reply_without_string_conversion_fails :
    Unanswered unprintableOutcome ∧
    (sendMessage aliceWidget unprintableOutcome).chatHistory =
      aliceWidget.chatHistory ++ [userTurn "Alice"] ∧
    (sendMessage aliceWidget unprintableOutcome).messages =
      aliceWidget.messages ++ [(.str "Alice", "user"), (.str errorMessage, "bot")] ∧
    (sendMessage aliceWidget unprintableOutcome).spoken = aliceWidget.spoken ∧
    (sendMessage aliceWidget unprintableOutcome).consoleErrors = [.typeError] :=
  ⟨Or.inr (Or.inr (Or.inr (Or.inr ⟨_, _, rfl, rfl, rfl⟩))), rfl, rfl, rfl, rfl⟩

/-- C8, at the failing input.  With the call for `Alice` in flight and the send
button disabled, a click on the send button is not dispatched, but typing
`Bob` and pressing Enter, or a final transcript `Bob`, starts a second call:
two calls are in flight, two requests have been issued and the history holds
both user turns. -/
theorem enter_and_transcript_submit_while_in_flight :
    awaitingAlice.inFlight = 1 ∧ awaitingAlice.sendDisabled = true ∧
    awaitingAlice.requests.length = 1 ∧
    (run awaitingAlice [.input "Bob", .sendClick]).inFlight = 1 ∧
    (run awaitingAlice [.input "Bob", .sendClick]).requests.length = 1 ∧
    (run awaitingAlice [.input "Bob", .keypress "Enter"]).inFlight = 2 ∧
    (run awaitingAlice [.input "Bob", .keypress "Enter"]).requests.length = 2 ∧
    (run awaitingAlice [.input "Bob", .keypress "Enter"]).chatHistory =
      [modelTurn (.str welcomeMessage), userTurn "Alice", userTurn "Bob"] ∧
    (run awaitingAlice [.speechResult "Bob"]).inFlight = 2 ∧
    (run awaitingAlice [.speechResult "Bob"]).requests.length = 2 ∧
    (run awaitingAlice [.speechResult "Bob"]).chatHistory =
      [modelTurn (.str welcomeMessage), userTurn "Alice", userTurn "Bob"] :=
  ⟨rfl, rfl, rfl, rfl, rfl, rfl, rfl, rfl, rfl, rfl, rfl⟩

/-- C5, at the failing input.  With the call for `Alice` in flight, `Bob` is
submitted with Enter; when the first call resolves, the call for `Bob` is
still in flight, yet the send button is enabled and the typing indicator is
hidden. -/
theorem send_enabled_while_in_flight :
    (run awaitingAlice [.input "Bob", .keypress "Enter"]).inFlight = 2 ∧
    (run awaitingAlice [.input "Bob", .keypress "Enter"]).sendDisabled = true ∧
    (run awaitingAlice [.input "Bob", .keypress "Enter", .resolved aliceOutcome]).inFlight = 1 ∧
    (run awaitingAlice
      [.input "Bob", .keypress "Enter", .resolved aliceOutcome]).sendDisabled = false ∧
    (run awaitingAlice
      [.input "Bob", .keypress "Enter", .resolved aliceOutcome]).typingHidden = true :=
  ⟨rfl, rfl, rfl, rfl, rfl⟩

/-- C6, as stated, fails: after `Alice` was answered with 200 and `{}`, the
submission of `Bob` issues a request whose history holds the `model` turn of
that answer, and the one part of that turn holds no text: its `text` is
`undefined`, and the body as sent has `{}` for it. -/
theorem part_without_text_in_request :
    jsTrim afterEmptyReply.inputValue ≠ "" ∧
    (sendMessageStart afterEmptyReply).requests = afterEmptyReply.requests ++ [bobRequest] ∧
    bobRequest.history =
      [modelTurn (.str welcomeMessage), userTurn "Alice", modelTurn .undefined,
        userTurn "Bob"] ∧
    ¬ WireTurn (modelTurn .undefined) ∧
    wireBody bobRequest =
      .obj [("message", .str "Bob"),
        ("history", .arr
          [.obj [("role", .str "model"), ("parts", .arr [.obj [("text", .str welcomeMessage)]])],
           .obj [("role", .str "user"), ("parts", .arr [.obj [("text", .str "Alice")]])],
           .obj [("role", .str "model"), ("parts", .arr [.obj []])],
           .obj [("role", .str "user"), ("parts", .arr [.obj [("text", .str "Bob")]])]])] := by
  refine ⟨by decide, rfl, rfl, ?_, rfl⟩
  rintro ⟨-, text, h⟩
  simp [modelTurn] at h

/-- C6, amended.  After any sequence of events, a submission whose trimmed
text is not empty issues exactly one request, a `POST` to `/chat`, and nothing
more is requested when the call resolves.  Its `message` is the text of the
user turn just appended and its `history` is the whole history at that point,
the prior history followed by that user turn.  Every entry has the role `user`
or `model` and exactly one part, and the part of every `user` entry holds its
text, a string.  As long as every remote call resolved so far that was treated
as a success carried a string `reply`, the part of every entry holds its text,
a string, and the body is sent with nothing left out. -/
theorem request_carries_history_as_pushed (p : Page) (events : List Event)
    (o : FetchOutcome) (hText : jsTrim (run (init p) events).inputValue ≠ "") :
    ∃ req : ChatRequest,
      (sendMessageStart (run (init p) events)).requests =
        (run (init p) events).requests ++ [req] ∧
      (sendMessage (run (init p) events) o).requests =
        (run (init p) events).requests ++ [req] ∧
      req.url = "/chat" ∧ req.method = "POST" ∧
      (sendMessageStart (run (init p) events)).chatHistory =
        (run (init p) events).chatHistory ++ [userTurn req.message] ∧
      req.history = (run (init p) events).chatHistory ++ [userTurn req.message] ∧
      req.history = (sendMessageStart (run (init p) events)).chatHistory ∧
      (∀ t ∈ req.history, PushedTurn t) ∧
      (∀ t ∈ req.history, t.role = "user" → WireTurn t) ∧
      ((∀ o1 : FetchOutcome, .resolved o1 ∈ events → RepliesWithString o1) →
        (∀ t ∈ req.history, WireTurn t) ∧ wireBody req = requestValue req) := by
  have hStart := sendMessageStart_of_nonempty (run (init p) events) hText
  have hInit : ∀ t ∈ (init p).chatHistory, PushedTurn t ∧ (t.role = "user" → WireTurn t) := by
    rw [init_chatHistory]
    intro t ht
    rw [List.mem_singleton.mp ht]
    exact ⟨pushedTurn_modelTurn _, fun _ => wireTurn_modelTurn _⟩
  have hPushed := run_chatHistory_pushed events (init p) hInit
  have hAll : ∀ t ∈ (run (init p) events).chatHistory ++
      [userTurn (jsTrim (run (init p) events).inputValue)],
      PushedTurn t ∧ (t.role = "user" → WireTurn t) :=
    forall_mem_append_singleton _ _ hPushed
      ⟨pushedTurn_userTurn _, fun _ => wireTurn_userTurn _⟩
  refine ⟨{ url := "/chat", method := "POST", contentType := "application/json",
            message := jsTrim (run (init p) events).inputValue,
            history := (run (init p) events).chatHistory ++
              [userTurn (jsTrim (run (init p) events).inputValue)] }, ?_, ?_, rfl, rfl,
          ?_, rfl, ?_, fun t ht => (hAll t ht).1, fun t ht => (hAll t ht).2, ?_⟩
  · rw [hStart]
  · rw [requests_after_resolution, hStart]
  · rw [hStart]
  · rw [hStart]
  · intro hEvents
    have hWireInit : ∀ t ∈ (init p).chatHistory, WireTurn t := by
      rw [init_chatHistory]
      intro t ht
      rw [List.mem_singleton.mp ht]
      exact wireTurn_modelTurn _
    have hWire : ∀ t ∈ (run (init p) events).chatHistory ++
        [userTurn (jsTrim (run (init p) events).inputValue)], WireTurn t :=
      forall_mem_append_singleton _ _
        (run_chatHistory_wire events (init p) hEvents hWireInit) (wireTurn_userTurn _)
    exact ⟨hWire, wireBody_of_wireTurns _ hWire⟩

theorem request_carries_history_as_pushed_witness :
    jsTrim (run (init idlePage) [.input "Alice"]).inputValue ≠ "" ∧
    ∃ req : ChatRequest,
      (sendMessageStart (run (init idlePage) [.input "Alice"])).requests =
        (run (init idlePage) [.input "Alice"]).requests ++ [req] ∧
      (sendMessage (run (init idlePage) [.input "Alice"]) aliceOutcome).requests =
        (run (init idlePage) [.input "Alice"]).requests ++ [req] ∧
      req.url = "/chat" ∧ req.method = "POST" ∧
      (sendMessageStart (run (init idlePage) [.input "Alice"])).chatHistory =
        (run (init idlePage) [.input "Alice"]).chatHistory ++ [userTurn req.message] ∧
      req.history = (run (init idlePage) [.input "Alice"]).chatHistory ++
        [userTurn req.message] ∧
      req.history = (sendMessageStart (run (init idlePage) [.input "Alice"])).chatHistory ∧
      (∀ t ∈ req.history, PushedTurn t) ∧
      (∀ t ∈ req.history, t.role = "user" → WireTurn t) ∧
      ((∀ o1 : FetchOutcome, .resolved o1 ∈ [Event.input "Alice"] → RepliesWithString o1) →
        (∀ t ∈ req.history, WireTurn t) ∧ wireBody req = requestValue req) :=
  ⟨by decide, request_carries_history_as_pushed idlePage [.input "Alice"] aliceOutcome
    (by decide)⟩

/-- C9. On every page, once the script has run the history is the welcome turn,
rendered once as `bot` and spoken once.  When the input is then set to a value
whose message text `t` (the value trimmed) is not empty and the remote call
succeeds with the reply `r`, the history is the welcome turn, the user turn
`t` and the `model` turn `r`; the messages rendered are the welcome message,
`t` as `user` and `r` as `bot`, with nothing logged as an error; and `r` is
spoken after the welcome message. -/
theorem welcome_then_reply (p : Page) (value t r : String) (o : FetchOutcome)
    (hValue : jsTrim value = t) (hText : t ≠ "") (hOk : RemoteSuccess r o) :
    (init p).chatHistory = [modelTurn (.str welcomeMessage)] ∧
    (init p).messages = [(.str welcomeMessage, "bot")] ∧
    (init p).spoken = [.str welcomeMessage] ∧
    (sendMessage (handle (init p) (.input value)) o).chatHistory =
      [modelTurn (.str welcomeMessage), userTurn t, modelTurn (.str r)] ∧
    (sendMessage (handle (init p) (.input value)) o).messages =
      [(.str welcomeMessage, "bot"), (.str t, "user"), (.str r, "bot")] ∧
    (sendMessage (handle (init p) (.input value)) o).spoken = [.str welcomeMessage, .str r] ∧
    (sendMessage (handle (init p) (.input value)) o).consoleErrors = [] := by
  obtain ⟨hM, hS, -, hE, -⟩ := init_log p
  have hH := init_chatHistory p
  have hIn : jsTrim (handle (init p) (.input value)).inputValue ≠ "" := by
    simpa [handle, hValue] using hText
  refine ⟨hH, hM, hS, ?_⟩
  rw [sendMessage_of_reply _ o (.str r) hIn (replyOf_of_success r o hOk)]
  simp [handle, hH, hM, hS, hE, hValue]

theorem welcome_then_reply_witness :
    jsTrim "Alice" = "Alice" ∧ "Alice" ≠ "" ∧
    RemoteSuccess "Nice to meet you, Alice!" aliceOutcome ∧
    (init idlePage).chatHistory = [modelTurn (.str welcomeMessage)] ∧
    (init idlePage).messages = [(.str welcomeMessage, "bot")] ∧
    (init idlePage).spoken = [.str welcomeMessage] ∧
    (sendMessage (handle (init idlePage) (.input "Alice")) aliceOutcome).chatHistory =
      [modelTurn (.str welcomeMessage), userTurn "Alice",
        modelTurn (.str "Nice to meet you, Alice!")] ∧
    (sendMessage (handle (init idlePage) (.input "Alice")) aliceOutcome).messages =
      [(.str welcomeMessage, "bot"), (.str "Alice", "user"),
        (.str "Nice to meet you, Alice!", "bot")] ∧
    (sendMessage (handle (init idlePage) (.input "Alice")) aliceOutcome).spoken =
      [.str welcomeMessage, .str "Nice to meet you, Alice!"] ∧
    (sendMessage (handle (init idlePage) (.input "Alice")) aliceOutcome).consoleErrors = [] :=
  ⟨by decide, by decide, ⟨rfl, rfl⟩,
    welcome_then_reply idlePage "Alice" "Alice" "Nice to meet you, Alice!" aliceOutcome
      (by decide) (by decide) ⟨rfl, rfl⟩⟩

/-- C10. Where speech recognition exists, a final transcript `x` leaves the
widget that setting the input to `x` and calling `sendMessage` leaves: the
same as typing `x` and pressing Enter, and as typing `x` and clicking the
enabled send button, up to the suspension and, for each outcome `o` of the
remote call, after its resolution. -/
theorem speechResult_as_typed (w : Widget) (x : String) (o : FetchOutcome)
    (hRec : w.recognition = true) :
    handle w (.speechResult x) = sendMessageStart (handle w (.input x)) ∧
    handle w (.speechResult x) = run w [.input x, .keypress "Enter"] ∧
    (w.sendDisabled = false → handle w (.speechResult x) = run w [.input x, .sendClick]) ∧
    run w [.speechResult x, .resolved o] = run w [.input x, .keypress "Enter", .resolved o] ∧
    (jsTrim x = "" → handle w (.speechResult x) = sendMessage (handle w (.input x)) o) ∧
    (jsTrim x ≠ "" →
      run w [.speechResult x, .resolved o] = sendMessage (handle w (.input x)) o) := by
  have h1 : handle w (.speechResult x) = sendMessageStart (handle w (.input x)) := by
    simp [handle, recognitionOnResult, hRec]
  have h2 : handle w (.speechResult x) = run w [.input x, .keypress "Enter"] := by
    rw [h1]; simp [run, handle, keypressListener]
  refine ⟨h1, h2, ?_, ?_, ?_, ?_⟩
  · intro hEn
    rw [h1]
    simp [run, handle, hEn]
  · show handle (handle w (.speechResult x)) (.resolved o) = _
    rw [h2]; rfl
  · intro hEmpty
    have hIn : jsTrim (handle w (.input x)).inputValue = "" := by simpa [handle] using hEmpty
    rw [h1, sendMessage, if_pos hIn]
  · intro hText
    have hIn : jsTrim (handle w (.input x)).inputValue ≠ "" := by simpa [handle] using hText
    show handle (handle w (.speechResult x)) (.resolved o) = _
    rw [h1, sendMessage, if_neg hIn]
    have hFlight : (sendMessageStart (handle w (.input x))).inFlight ≠ 0 := by
      rw [sendMessageStart_of_nonempty _ hIn]; simp
    exact if_neg hFlight

theorem speechResult_as_typed_witness :
    (init idlePage).recognition = true ∧
    handle (init idlePage) (.speechResult "Charlie") =
      sendMessageStart (handle (init idlePage) (.input "Charlie")) ∧
    handle (init idlePage) (.speechResult "Charlie") =
      run (init idlePage) [.input "Charlie", .keypress "Enter"] ∧
    ((init idlePage).sendDisabled = false →
      handle (init idlePage) (.speechResult "Charlie") =
        run (init idlePage) [.input "Charlie", .sendClick]) ∧
    run (init idlePage) [.speechResult "Charlie", .resolved aliceOutcome] =
      run (init idlePage) [.input "Charlie", .keypress "Enter", .resolved aliceOutcome] ∧
    (jsTrim "Charlie" = "" →
      handle (init idlePage) (.speechResult "Charlie") =
        sendMessage (handle (init idlePage) (.input "Charlie")) aliceOutcome) ∧
    (jsTrim "Charlie" ≠ "" →
      run (init idlePage) [.speechResult "Charlie", .resolved aliceOutcome] =
        sendMessage (handle (init idlePage) (.input "Charlie")) aliceOutcome) :=
  ⟨rfl, speechResult_as_typed (init idlePage) "Charlie" aliceOutcome rfl⟩

end LoanBot
